import Mathlib

/-!
Verification of the Ostad result-checker backend
(`src/Ostad-Capstone-Backend/server.js`).

The server is an Express application over MongoDB (persistent store) and
Redis (cache).  The embedding below models the JSON value domain, the
Redis cache with per-key expiry, the Mongo collections, and the three
request handlers the claims are about:

* `GET /result/:id`   — `getResultHandler` (cache-aside read path)
* `POST /addResult`   — `addResultHandler`
* `POST /addStudent`  — `addStudentHandler`

Modelling conventions, noted where they matter:

* JSON serialization: the server stores `JSON.stringify(doc)` in Redis and
  returns `JSON.parse(cached)` on a hit.  `JSON.parse ∘ JSON.stringify` is
  the identity on the JSON value domain, and `JSON.stringify` never
  produces the empty string, so the cache is modelled as holding the JSON
  value itself and the JavaScript truthiness test `if (cached)` on the
  cached string coincides with presence of an unexpired entry.
* MongoDB `findOne with an id filter` is modelled as "first document in
  insertion order whose `id` field equals the queried string".  The
  handler always queries with the (string) route parameter.
* The MongoDB Node driver assigns the generated ObjectId into the inserted
  document's `_id` field when the document has none (pkFactory side
  effect), so both the stored document and the object the handler goes on
  to cache carry `_id`.  ObjectId generation is modelled by a counter and
  its JSON form (the hex string) by `oidJson`.
* Driver/transport failures are modelled by a `Faults` record giving, for
  each downstream call, the error it raises (if any); the handlers'
  `try/catch` translates a raised error into the handler's 500 response.
-/

/-- JSON values, the domain of request bodies, stored documents and cache
entries. Numbers are modelled as integers: no claim involves non-integral
or non-finite numerics. -/
inductive JsValue where
  | null : JsValue
  | bool (b : Bool) : JsValue
  | num (n : Int) : JsValue
  | str (s : String) : JsValue
  | arr (elems : List JsValue) : JsValue
  | obj (fields : List (String × JsValue)) : JsValue

/-- Property access `v.k`: `some` field value on an object that has the
key (first occurrence; JSON object keys are unique), otherwise the access
yields JavaScript `undefined`, modelled as `none`. -/
def JsValue.getField (v : JsValue) (k : String) : Option JsValue :=
  match v with
  | .obj fields => fields.lookup k
  | _ => none

/-- JavaScript truthiness of a defined value: `null`, `false`, `0` and the
empty string are falsy; every object and array is truthy. -/
def jsTruthy : JsValue → Bool
  | .null => false
  | .bool b => b
  | .num n => n != 0
  | .str s => s != ""
  | .arr _ => true
  | .obj _ => true

/-- Truthiness of a property access (`!body.id` guards): a missing field
is `undefined`, which is falsy. -/
def truthyField (v : JsValue) (k : String) : Bool :=
  match v.getField k with
  | some x => jsTruthy x
  | none => false

mutual

/-- JavaScript string conversion, as used by the template literal
building the cache key in the `POST /addResult` handler
(backtick result colon dollar-brace resultData.id brace-close). -/
def jsToString : JsValue → String
  | .null => "null"
  | .bool true => "true"
  | .bool false => "false"
  | .num n => toString n
  | .str s => s
  | .arr elems => jsToStringElems elems
  | .obj _ => "[object Object]"

/-- Array-to-string: elements joined by commas, `null` elements printed
as the empty string. -/
def jsToStringElems : List JsValue → String
  | [] => ""
  | [JsValue.null] => ""
  | [e] => jsToString e
  | JsValue.null :: rest => "," ++ jsToStringElems rest
  | e :: rest => jsToString e ++ "," ++ jsToStringElems rest

end

/-- Numeric value of one character as a digit, accepting the hexadecimal
letters (used with a radix bound below). -/
def digitVal (c : Char) : Option Nat :=
  if '0' ≤ c ∧ c ≤ '9' then some (c.toNat - '0'.toNat)
  else if 'a' ≤ c ∧ c ≤ 'f' then some (c.toNat - 'a'.toNat + 10)
  else if 'A' ≤ c ∧ c ≤ 'F' then some (c.toNat - 'A'.toNat + 10)
  else none

/-- Longest digit run in the given radix, accumulating left to right;
`none` when no digit at all was consumed (the NaN case of `parseInt`). -/
def parseDigits (radix : Nat) : List Char → Option Nat → Option Nat
  | [], acc => acc
  | c :: rest, acc =>
    match digitVal c with
    | some d =>
      if d < radix then parseDigits radix rest (some (acc.getD 0 * radix + d))
      else acc
    | none => acc

/-- JavaScript `parseInt(s)` with no radix argument: skip leading
whitespace, read an optional sign, detect a hexadecimal `0x` marker, then
take the longest digit run; `none` models NaN. -/
def jsParseIntStr (s : String) : Option Int :=
  let cs := s.toList.dropWhile fun c => c = ' ' ∨ c = '\t' ∨ c = '\n' ∨ c = '\r'
  let signed : Int × List Char :=
    match cs with
    | '-' :: rest => (-1, rest)
    | '+' :: rest => (1, rest)
    | _ => (1, cs)
  let afterRadix : Nat × List Char :=
    match signed.2 with
    | '0' :: 'x' :: rest => (16, rest)
    | '0' :: 'X' :: rest => (16, rest)
    | rest => (10, rest)
  match parseDigits afterRadix.1 afterRadix.2 none with
  | some n => some (signed.1 * n)
  | none => none

/-- `parseInt(process.env.CACHE_TTL)`: an unset variable is `undefined`,
and `parseInt(undefined)` is NaN. -/
def jsParseIntEnv : Option String → Option Int
  | none => none
  | some s => jsParseIntStr s

/-- `const CACHE_TTL = parseInt(process.env.CACHE_TTL) || 600` at
server.js:14 — NaN and 0 are falsy and fall back to 600; any other parsed
integer (negative included) is kept. -/
def effectiveCacheTTL (env : Option String) : Int :=
  match jsParseIntEnv env with
  | none => 600
  | some n => if n = 0 then 600 else n

/-- One Redis entry: the cached JSON value (standing for its
serialization, see the header note) and the absolute expiry instant set
by `SETEX` at write time. -/
structure CacheEntry where
  value : JsValue
  expiresAt : Int

/-- The Redis keyspace: an association list from key to entry.  Keys are
unique (every write first drops the old entry for the key). -/
abbrev CacheState := List (String × CacheEntry)

/-- Remove every entry stored under `key`. -/
def removeKey : CacheState → String → CacheState
  | [], _ => []
  | (k, e) :: rest, key =>
    if k = key then removeKey rest key else (k, e) :: removeKey rest key

/-- `redisClient.get(key)` at instant `now`: the stored value provided
its expiry has not been reached; an expired or absent key reads as nil. -/
def redisGet (cache : CacheState) (now : Int) (key : String) : Option JsValue :=
  match cache.lookup key with
  | some e => if now < e.expiresAt then some e.value else none
  | none => none

/-- `redisClient.setEx(key, ttl, v)` at instant `now`: overwrite the key
with value `v` expiring at `now + ttl`. -/
def redisSetEx (cache : CacheState) (now : Int) (key : String) (ttl : Int)
    (v : JsValue) : CacheState :=
  (key, ⟨v, now + ttl⟩) :: removeKey cache key

/-- The MongoDB side: the two collections in insertion order, the
ObjectId generation counter, and an instrumentation counter of queries
against the `results` collection (the store-call counter of the spec's
testable properties, not a production feature). -/
structure StoreState where
  students : List JsValue
  results : List JsValue
  nextOid : Nat
  findCalls : Nat

/-- JSON form of the `n`-th generated ObjectId (an ObjectId serializes to
its hex string; the string is abstracted by the generation index). -/
def oidJson (n : Nat) : JsValue :=
  .str ("objectid-" ++ toString n)

/-- `collection.findOne(obj id studentId)`: first document in insertion
order whose `id` field equals the queried string. -/
def findOneById (docs : List JsValue) (id : String) : Option JsValue :=
  docs.find? fun d =>
    match d.getField "id" with
    | some (.str t) => t = id
    | _ => false

/-- `collection.insertOne(doc)`: when the document has no `_id`, the
driver generates an ObjectId, assigns it into the document (pkFactory
side effect) and reports it as `insertedId`; a document arriving with its
own `_id` is stored as-is and that value is the `insertedId`.  Returns
(insertedId, stored document, next ObjectId counter). -/
def mongoInsert (doc : JsValue) (nextOid : Nat) : JsValue × JsValue × Nat :=
  match doc with
  | .obj fs =>
    match fs.lookup "_id" with
    | some v => (v, .obj fs, nextOid)
    | none => (oidJson nextOid, .obj (fs ++ [("_id", oidJson nextOid)]), nextOid + 1)
  | v => (oidJson nextOid, v, nextOid + 1)

/-- Which downstream driver calls raise a transport error in this run,
and with what message.  `none` everywhere is a fault-free run. -/
structure Faults where
  cacheGet : Option String
  cacheSet : Option String
  storeFind : Option String
  storeInsert : Option String

/-- The fault-free downstream environment. -/
def noFaults : Faults := ⟨none, none, none, none⟩

/-- An HTTP response: status code and JSON body. -/
structure HttpResponse where
  status : Nat
  body : JsValue

/-- Body of the form (error: msg), as produced by the handlers' failure
branches. -/
def errBody (msg : String) : JsValue :=
  .obj [("error", .str msg)]

/-- What one handler invocation produces: the response, the cache and
store states after the call, and the error the handler's catch block
received (if any downstream call raised). -/
structure HandlerOutcome where
  response : HttpResponse
  cache : CacheState
  store : StoreState
  caught : Option String

/-- The `GET /result/:id` handler (server.js:135-167), cache-aside:
read `result:` ++ studentId from Redis; on a hit return the cached value;
on a miss query the `results` collection by `id`; 404 when absent; else
`SETEX` the document under the same key with the configured TTL and
return it; any raised driver error is caught and answered with a generic
500 body. -/
def getResultHandler (ttl : Int) (now : Int) (f : Faults) (cache : CacheState)
    (store : StoreState) (studentId : String) : HandlerOutcome :=
  let key := "result:" ++ studentId
  match f.cacheGet with
  | some e => ⟨⟨500, errBody "Failed to fetch result"⟩, cache, store, some e⟩
  | none =>
    match redisGet cache now key with
    | some v => ⟨⟨200, v⟩, cache, store, none⟩
    | none =>
      let store1 : StoreState := { store with findCalls := store.findCalls + 1 }
      match f.storeFind with
      | some e => ⟨⟨500, errBody "Failed to fetch result"⟩, cache, store1, some e⟩
      | none =>
        match findOneById store.results studentId with
        | none => ⟨⟨404, errBody "Result not found"⟩, cache, store1, none⟩
        | some doc =>
          match f.cacheSet with
          | some e => ⟨⟨500, errBody "Failed to fetch result"⟩, cache, store1, some e⟩
          | none =>
            ⟨⟨200, doc⟩, redisSetEx cache now key ttl doc, store1, none⟩

/-- The `POST /addResult` handler (server.js:170-197): reject with 400
unless `id` and `subjects` are both truthy; insert into `results`; cache
the (driver-mutated) document under `result:` ++ String(id) with the
configured TTL; answer 201 with the message and the insertedId. -/
def addResultHandler (ttl : Int) (now : Int) (f : Faults) (cache : CacheState)
    (store : StoreState) (body : JsValue) : HandlerOutcome :=
  if !truthyField body "id" || !truthyField body "subjects" then
    ⟨⟨400, errBody "Invalid result data"⟩, cache, store, none⟩
  else
    match f.storeInsert with
    | some e => ⟨⟨500, errBody "Failed to add result"⟩, cache, store, some e⟩
    | none =>
      let ins := mongoInsert body store.nextOid
      let store1 : StoreState :=
        { store with results := store.results ++ [ins.2.1], nextOid := ins.2.2 }
      match f.cacheSet with
      | some e => ⟨⟨500, errBody "Failed to add result"⟩, cache, store1, some e⟩
      | none =>
        let key := "result:" ++ jsToString ((ins.2.1.getField "id").getD .null)
        ⟨⟨201, .obj [("message", .str "Result added"), ("id", ins.1)]⟩,
          redisSetEx cache now key ttl ins.2.1, store1, none⟩

/-- The `POST /addStudent` handler (server.js:109-132): reject with 400
unless `id` and `name` are both truthy; insert into `students` with no
de-duplication check; answer 201 with the message and the insertedId.
The cache is never touched. -/
def addStudentHandler (f : Faults) (cache : CacheState) (store : StoreState)
    (body : JsValue) : HandlerOutcome :=
  if !truthyField body "id" || !truthyField body "name" then
    ⟨⟨400, errBody "Invalid student data"⟩, cache, store, none⟩
  else
    match f.storeInsert with
    | some e => ⟨⟨500, errBody "Failed to add student"⟩, cache, store, some e⟩
    | none =>
      let ins := mongoInsert body store.nextOid
      let store1 : StoreState :=
        { store with students := store.students ++ [ins.2.1], nextOid := ins.2.2 }
      ⟨⟨201, .obj [("message", .str "Student added"), ("id", ins.1)]⟩,
        cache, store1, none⟩

/-- Shared sample payload: the spec's concrete scenario result for
student S1. -/
def sampleResult : JsValue :=
  .obj [("id", .str "S1"), ("subjects", .obj [("math", .num 90)])]

/-- Shared sample store: both collections empty, counters at zero. -/
def emptyStore : StoreState := ⟨[], [], 0, 0⟩

/-- A key just written by `SETEX` reads back its value at any instant
before the expiry `now + ttl`. -/
theorem redisGet_setEx_self (cache : CacheState) (now now2 key ttl v)
    (h : now2 < now + ttl) :
    redisGet (redisSetEx cache now key ttl v) now2 key = some v := by
  simp [redisGet, redisSetEx, List.lookup_cons_self, h]

/-- Looking a key up across an append tries the left list first. -/
theorem lookup_append_left {β : Type} (l₁ l₂ : List (String × β)) (k : String)
    (v : β) (h : l₁.lookup k = some v) : (l₁ ++ l₂).lookup k = some v := by
  induction l₁ with
  | nil => simp [List.lookup] at h
  | cons p rest ih =>
    rw [List.cons_append]
    rw [List.lookup_cons] at h ⊢
    cases hk : k == p.1 with
    | true => rw [hk] at h; exact h ▸ rfl
    | false => rw [hk] at h; simpa using ih h

/-- C9: counterexample — the claim says the effective cache TTL is always
a positive integer, but with the environment variable set to the string
-1, `parseInt` yields -1, which is truthy, so the configured TTL is the
negative integer -1: neither positive nor the 600 fallback. -/
theorem C9_ttl_positive_counterexample :
    effectiveCacheTTL (some "-1") = -1 ∧ ¬ 0 < effectiveCacheTTL (some "-1") := by
  constructor
  · rfl
  · decide

/-- C9 (amended): the effective cache TTL is a nonzero integer — when the
CACHE_TTL environment variable is unset or non-numeric (`parseInt` NaN),
or parses to 0, the TTL falls back to 600 seconds, and a TTL of zero is
never used; a negative numeric setting, however, is kept as-is, so the
TTL is not positive in general. -/
theorem C9_ttl_amended (env : Option String) :
    effectiveCacheTTL env ≠ 0 ∧
    (env = none → effectiveCacheTTL env = 600) ∧
    (jsParseIntEnv env = none → effectiveCacheTTL env = 600) ∧
    (jsParseIntEnv env = some 0 → effectiveCacheTTL env = 600) := by
  refine ⟨?_, ?_, ?_, ?_⟩
  · unfold effectiveCacheTTL
    cases h : jsParseIntEnv env with
    | none => decide
    | some n =>
      by_cases hn : n = 0
      · simp [hn]
      · simp [hn]
  · intro h; subst h; rfl
  · intro h; unfold effectiveCacheTTL; rw [h]
  · intro h; unfold effectiveCacheTTL; rw [h]; rfl

/-- C9 witness: the amended theorem applied to a concrete unset
environment. -/
theorem C9_ttl_amended_witness :
    effectiveCacheTTL none ≠ 0 ∧ effectiveCacheTTL none = 600 :=
  ⟨(C9_ttl_amended none).1, (C9_ttl_amended none).2.1 rfl⟩

/-- C3: when the cache holds no entry under `result:` ++ s and the
`results` collection holds no document with id s, lookup answers 404 with
body (error: Result not found) and leaves the cache unchanged — no entry
is written for s. -/
theorem C3_lookup_not_found (ttl now : Int) (cache : CacheState)
    (store : StoreState) (s : String)
    (hc : cache.lookup ("result:" ++ s) = none)
    (hs : findOneById store.results s = none) :
    (getResultHandler ttl now noFaults cache store s).response
      = ⟨404, errBody "Result not found"⟩ ∧
    (getResultHandler ttl now noFaults cache store s).cache = cache := by
  simp [getResultHandler, noFaults, redisGet, hc, hs]

/-- C3 witness: the spec's concrete scenario — GET /result/UNKNOWN on an
empty store and empty cache. -/
theorem C3_lookup_not_found_witness :
    (getResultHandler 600 0 noFaults [] emptyStore "UNKNOWN").response
      = ⟨404, errBody "Result not found"⟩ ∧
    (getResultHandler 600 0 noFaults [] emptyStore "UNKNOWN").cache = [] :=
  C3_lookup_not_found 600 0 [] emptyStore "UNKNOWN" rfl rfl

/-- C4: a POST /addResult body missing `id` or missing `subjects` is
answered 400 and neither the store nor the cache is written, whatever the
downstream fault environment (validation precedes every downstream
call). -/
theorem C4_ingest_reject_missing (ttl now : Int) (f : Faults)
    (cache : CacheState) (store : StoreState) (body : JsValue)
    (h : body.getField "id" = none ∨ body.getField "subjects" = none) :
    (addResultHandler ttl now f cache store body).response
      = ⟨400, errBody "Invalid result data"⟩ ∧
    (addResultHandler ttl now f cache store body).cache = cache ∧
    (addResultHandler ttl now f cache store body).store = store := by
  cases h with
  | inl h => simp [addResultHandler, truthyField, h]
  | inr h => simp [addResultHandler, truthyField, h]

/-- C4 witness: a body carrying subjects but no id is rejected with no
side effect. -/
theorem C4_ingest_reject_missing_witness :
    (addResultHandler 600 0 noFaults [] emptyStore
        (.obj [("subjects", .obj [("math", .num 90)])])).response
      = ⟨400, errBody "Invalid result data"⟩ ∧
    (addResultHandler 600 0 noFaults [] emptyStore
        (.obj [("subjects", .obj [("math", .num 90)])])).cache = [] ∧
    (addResultHandler 600 0 noFaults [] emptyStore
        (.obj [("subjects", .obj [("math", .num 90)])])).store = emptyStore :=
  C4_ingest_reject_missing 600 0 noFaults [] emptyStore
    (.obj [("subjects", .obj [("math", .num 90)])]) (Or.inl rfl)

/-- C1: the lookup handler is cache-aside.  In a fault-free run: a
present (unexpired) cache entry under `result:` ++ s is returned as-is
with the store untouched (no query, no state change); on an absent entry
the `results` collection is queried exactly once, and when a document
with id s is found it is written into the cache under the same key with
the configured TTL and returned. -/
theorem C1_cache_aside (ttl now : Int) (cache : CacheState)
    (store : StoreState) (s : String) :
    (∀ v, redisGet cache now ("result:" ++ s) = some v →
      (getResultHandler ttl now noFaults cache store s).response = ⟨200, v⟩ ∧
      (getResultHandler ttl now noFaults cache store s).store = store ∧
      (getResultHandler ttl now noFaults cache store s).cache = cache) ∧
    (redisGet cache now ("result:" ++ s) = none →
      (getResultHandler ttl now noFaults cache store s).store.findCalls
        = store.findCalls + 1 ∧
      ∀ doc, findOneById store.results s = some doc →
        (getResultHandler ttl now noFaults cache store s).response = ⟨200, doc⟩ ∧
        (getResultHandler ttl now noFaults cache store s).cache
          = redisSetEx cache now ("result:" ++ s) ttl doc) := by
  constructor
  · intro v hv
    simp [getResultHandler, noFaults, hv]
  · intro hmiss
    constructor
    · simp only [getResultHandler, noFaults, hmiss]
      cases hd : findOneById store.results s <;> simp
    · intro doc hdoc
      simp [getResultHandler, noFaults, hmiss, hdoc]

/-- C1 witness: with a warm cache entry for S1 the handler serves the
cached value and does not touch the store. -/
theorem C1_cache_aside_witness :
    (getResultHandler 600 0 noFaults [("result:S1", ⟨sampleResult, 600⟩)]
        emptyStore "S1").response = ⟨200, sampleResult⟩ ∧
    (getResultHandler 600 0 noFaults [("result:S1", ⟨sampleResult, 600⟩)]
        emptyStore "S1").store = emptyStore :=
  ⟨((C1_cache_aside 600 0 [("result:S1", ⟨sampleResult, 600⟩)] emptyStore "S1").1
      sampleResult (by rfl)).1,
   ((C1_cache_aside 600 0 [("result:S1", ⟨sampleResult, 600⟩)] emptyStore "S1").1
      sampleResult (by rfl)).2.1⟩

/-- Shared sample store whose `results` collection already holds the S1
document. -/
def storeWithS1 : StoreState := ⟨[], [sampleResult], 0, 0⟩

/-- C5: after a cold fault-free lookup for s (cache miss, document found)
a subsequent lookup at any instant inside the TTL window returns the same
response and performs no further store query (the store-call counter does
not move). -/
theorem C5_warm_lookup_within_ttl (ttl now now2 : Int) (cache : CacheState)
    (store : StoreState) (s : String) (doc : JsValue)
    (hmiss : redisGet cache now ("result:" ++ s) = none)
    (hdoc : findOneById store.results s = some doc)
    (_hafter : now ≤ now2) (h2 : now2 < now + ttl) :
    (getResultHandler ttl now noFaults cache store s).response = ⟨200, doc⟩ ∧
    (getResultHandler ttl now2 noFaults
        (getResultHandler ttl now noFaults cache store s).cache
        (getResultHandler ttl now noFaults cache store s).store s).response
      = ⟨200, doc⟩ ∧
    (getResultHandler ttl now2 noFaults
        (getResultHandler ttl now noFaults cache store s).cache
        (getResultHandler ttl now noFaults cache store s).store s).store.findCalls
      = (getResultHandler ttl now noFaults cache store s).store.findCalls := by
  have hout : getResultHandler ttl now noFaults cache store s =
      ⟨⟨200, doc⟩, redisSetEx cache now ("result:" ++ s) ttl doc,
        { store with findCalls := store.findCalls + 1 }, none⟩ := by
    simp [getResultHandler, noFaults, hmiss, hdoc]
  rw [hout]
  have hget := redisGet_setEx_self cache now now2 ("result:" ++ s) ttl doc h2
  refine ⟨rfl, ?_, ?_⟩ <;> simp [getResultHandler, noFaults, hget]

/-- C5 witness: cold lookup at instant 0 with S1 in the store, warm
lookup at instant 10 with TTL 600. -/
theorem C5_warm_lookup_within_ttl_witness :
    (getResultHandler 600 0 noFaults [] storeWithS1 "S1").response
      = ⟨200, sampleResult⟩ ∧
    (getResultHandler 600 10 noFaults
        (getResultHandler 600 0 noFaults [] storeWithS1 "S1").cache
        (getResultHandler 600 0 noFaults [] storeWithS1 "S1").store "S1").response
      = ⟨200, sampleResult⟩ ∧
    (getResultHandler 600 10 noFaults
        (getResultHandler 600 0 noFaults [] storeWithS1 "S1").cache
        (getResultHandler 600 0 noFaults [] storeWithS1 "S1").store "S1").store.findCalls
      = (getResultHandler 600 0 noFaults [] storeWithS1 "S1").store.findCalls :=
  C5_warm_lookup_within_ttl 600 0 10 [] storeWithS1 "S1" sampleResult
    rfl rfl (by decide) (by decide)

/-- C6: whenever the lookup handler's catch block receives an error — and
it can only receive one from the cache read, the store query or the cache
write, as the final disjunct records — the response is 500 with the fixed
generic body (independent of the underlying error message), the cache is
not written, and the store was queried at most once (no retry, no partial
result). -/
theorem C6_lookup_service_error (ttl now : Int) (f : Faults)
    (cache : CacheState) (store : StoreState) (s : String) (e : String)
    (h : (getResultHandler ttl now f cache store s).caught = some e) :
    (getResultHandler ttl now f cache store s).response
      = ⟨500, errBody "Failed to fetch result"⟩ ∧
    (getResultHandler ttl now f cache store s).cache = cache ∧
    (getResultHandler ttl now f cache store s).store.findCalls
      ≤ store.findCalls + 1 ∧
    (f.cacheGet = some e ∨ f.storeFind = some e ∨ f.cacheSet = some e) := by
  rcases hcg : f.cacheGet with _ | e1
  · rcases hget : redisGet cache now ("result:" ++ s) with _ | v
    · rcases hsf : f.storeFind with _ | e2
      · rcases hfind : findOneById store.results s with _ | doc
        · simp [getResultHandler, hcg, hget, hsf, hfind] at h
        · rcases hcs : f.cacheSet with _ | e3
          · simp [getResultHandler, hcg, hget, hsf, hfind, hcs] at h
          · simp only [getResultHandler, hcg, hget, hsf, hfind, hcs] at h ⊢
            simp at h
            subst h
            exact ⟨trivial, trivial, by omega, Or.inr (Or.inr rfl)⟩
      · simp only [getResultHandler, hcg, hget, hsf] at h ⊢
        simp at h
        subst h
        exact ⟨trivial, trivial, by omega, Or.inr (Or.inl rfl)⟩
    · simp [getResultHandler, hcg, hget] at h
  · simp only [getResultHandler, hcg] at h ⊢
    simp at h
    subst h
    exact ⟨trivial, trivial, by omega, Or.inl rfl⟩

/-- C6 witness: a run whose Redis read raises is answered with the
generic 500 body and no state damage. -/
theorem C6_lookup_service_error_witness :
    (getResultHandler 600 0 ⟨some "boom", none, none, none⟩ [] emptyStore
        "S1").response = ⟨500, errBody "Failed to fetch result"⟩ ∧
    (getResultHandler 600 0 ⟨some "boom", none, none, none⟩ [] emptyStore
        "S1").cache = [] ∧
    (getResultHandler 600 0 ⟨some "boom", none, none, none⟩ [] emptyStore
        "S1").store.findCalls ≤ emptyStore.findCalls + 1 ∧
    ((⟨some "boom", none, none, none⟩ : Faults).cacheGet = some "boom" ∨
      (⟨some "boom", none, none, none⟩ : Faults).storeFind = some "boom" ∨
      (⟨some "boom", none, none, none⟩ : Faults).cacheSet = some "boom") :=
  C6_lookup_service_error 600 0 ⟨some "boom", none, none, none⟩ [] emptyStore
    "S1" "boom" rfl

/-- The driver-side `_id` assignment of `insertOne` preserves every field
the document already had. -/
theorem mongoInsert_getField (fs : List (String × JsValue)) (n : Nat)
    (k : String) (v : JsValue) (h : (JsValue.obj fs).getField k = some v) :
    ((mongoInsert (.obj fs) n).2.1).getField k = some v := by
  simp only [JsValue.getField] at h
  cases hl : fs.lookup "_id" with
  | some w => simp [mongoInsert, hl, JsValue.getField, h]
  | none =>
    simp only [mongoInsert, hl, JsValue.getField]
    exact lookup_append_left fs _ k v h

/-- C2: counterexample — ingesting the S1 result into an empty system and
immediately looking it up returns the document extended with the
driver-assigned `_id` field, which is not equal to the ingested value, so
the round trip is not observationally exact. -/
theorem C2_roundtrip_counterexample :
    (getResultHandler 600 0 noFaults
        (addResultHandler 600 0 noFaults [] emptyStore sampleResult).cache
        (addResultHandler 600 0 noFaults [] emptyStore sampleResult).store
        "S1").response.body
      = .obj [("id", .str "S1"), ("subjects", .obj [("math", .num 90)]),
              ("_id", oidJson 0)] ∧
    JsValue.obj [("id", .str "S1"), ("subjects", .obj [("math", .num 90)]),
        ("_id", oidJson 0)] ≠ sampleResult := by
  refine ⟨by rfl, ?_⟩
  intro h
  simp [sampleResult] at h

/-- C2 (amended): for every valid result body with string id s and a
positive TTL, a fault-free ingest writes the cache under
`result:` ++ s — the key lookup reads — and an immediate lookup of s
answers 200 with the stored document, which is the ingested body extended
by the store-assigned `_id` and agrees with the body on every field the
body had. -/
theorem C2_roundtrip_amended (ttl now : Int) (cache : CacheState)
    (store : StoreState) (fs : List (String × JsValue)) (s : String)
    (hid : (JsValue.obj fs).getField "id" = some (.str s))
    (hs : s ≠ "")
    (hsub : truthyField (JsValue.obj fs) "subjects" = true)
    (httl : 0 < ttl) :
    (addResultHandler ttl now noFaults cache store (.obj fs)).response.status
      = 201 ∧
    redisGet (addResultHandler ttl now noFaults cache store (.obj fs)).cache
        now ("result:" ++ s) = some (mongoInsert (.obj fs) store.nextOid).2.1 ∧
    (getResultHandler ttl now noFaults
        (addResultHandler ttl now noFaults cache store (.obj fs)).cache
        (addResultHandler ttl now noFaults cache store (.obj fs)).store
        s).response
      = ⟨200, (mongoInsert (.obj fs) store.nextOid).2.1⟩ ∧
    (∀ k v, (JsValue.obj fs).getField k = some v →
      ((mongoInsert (.obj fs) store.nextOid).2.1).getField k = some v) := by
  have htid : truthyField (JsValue.obj fs) "id" = true := by
    simp [truthyField, hid, jsTruthy, hs]
  have hkey : (mongoInsert (.obj fs) store.nextOid).2.1.getField "id"
      = some (.str s) :=
    mongoInsert_getField fs store.nextOid "id" (.str s) hid
  have hadd : addResultHandler ttl now noFaults cache store (.obj fs) =
      ⟨⟨201, .obj [("message", .str "Result added"),
          ("id", (mongoInsert (.obj fs) store.nextOid).1)]⟩,
        redisSetEx cache now ("result:" ++ s) ttl
          (mongoInsert (.obj fs) store.nextOid).2.1,
        { store with
            results := store.results ++ [(mongoInsert (.obj fs) store.nextOid).2.1],
            nextOid := (mongoInsert (.obj fs) store.nextOid).2.2 }, none⟩ := by
    simp [addResultHandler, noFaults, htid, hsub, hkey, jsToString]
  rw [hadd]
  have hget := redisGet_setEx_self cache now now ("result:" ++ s) ttl
    (mongoInsert (.obj fs) store.nextOid).2.1 (by omega)
  refine ⟨rfl, hget, ?_, fun k v hkv => mongoInsert_getField fs store.nextOid k v hkv⟩
  simp [getResultHandler, noFaults, hget]

/-- C2 witness: the amended round trip at the spec's S1 scenario. -/
theorem C2_roundtrip_amended_witness :
    (addResultHandler 600 0 noFaults [] emptyStore sampleResult).response.status
      = 201 ∧
    (getResultHandler 600 0 noFaults
        (addResultHandler 600 0 noFaults [] emptyStore sampleResult).cache
        (addResultHandler 600 0 noFaults [] emptyStore sampleResult).store
        "S1").response
      = ⟨200, (mongoInsert sampleResult emptyStore.nextOid).2.1⟩ :=
  ⟨(C2_roundtrip_amended 600 0 [] emptyStore
      [("id", .str "S1"), ("subjects", .obj [("math", .num 90)])] "S1"
      rfl (by decide) rfl (by decide)).1,
   (C2_roundtrip_amended 600 0 [] emptyStore
      [("id", .str "S1"), ("subjects", .obj [("math", .num 90)])] "S1"
      rfl (by decide) rfl (by decide)).2.2.1⟩

/-- C7: counterexample — a successful ingest of the S1 result answers 201,
but the response body is exactly the two-field object carrying the fixed
message and, under the key `id`, the store-assigned ObjectId; the
application id S1 is not in the body (the only two field values are the
message string and the ObjectId string, neither of which is S1). -/
theorem C7_ingest_response_counterexample :
    (addResultHandler 600 0 noFaults [] emptyStore sampleResult).response.status
      = 201 ∧
    (addResultHandler 600 0 noFaults [] emptyStore sampleResult).response.body
      = .obj [("message", .str "Result added"), ("id", oidJson 0)] ∧
    JsValue.str "Result added" ≠ .str "S1" ∧ oidJson 0 ≠ .str "S1" := by
  refine ⟨rfl, rfl, ?_, ?_⟩
  · intro h
    injection h with h
    exact absurd h (by decide)
  · intro h
    injection h with h
    exact absurd h (by decide)

/-- C7 (amended): a fault-free ingest of a valid result body answers 201
with exactly the body carrying the fixed message and, under the key `id`,
the store-assigned internal identifier; the application id is not part of
the response body. -/
theorem C7_ingest_response_amended (ttl now : Int) (cache : CacheState)
    (store : StoreState) (body : JsValue)
    (hid : truthyField body "id" = true)
    (hsub : truthyField body "subjects" = true) :
    (addResultHandler ttl now noFaults cache store body).response
      = ⟨201, .obj [("message", .str "Result added"),
          ("id", (mongoInsert body store.nextOid).1)]⟩ := by
  simp [addResultHandler, noFaults, hid, hsub]

/-- C7 witness: the amended response shape at the S1 scenario. -/
theorem C7_ingest_response_amended_witness :
    (addResultHandler 600 0 noFaults [] emptyStore sampleResult).response
      = ⟨201, .obj [("message", .str "Result added"),
          ("id", (mongoInsert sampleResult emptyStore.nextOid).1)]⟩ :=
  C7_ingest_response_amended 600 0 [] emptyStore sampleResult rfl rfl

/-- C8: counterexample — a POST /addStudent body whose `id` and `name`
are both present (the id is the empty string) is nevertheless rejected
with 400 and nothing is inserted, so presence of the two fields does not
suffice for the insert the claim promises. -/
theorem C8_addStudent_present_counterexample :
    (JsValue.obj [("id", .str ""), ("name", .str "Bob")]).getField "id"
      = some (.str "") ∧
    (JsValue.obj [("id", .str ""), ("name", .str "Bob")]).getField "name"
      = some (.str "Bob") ∧
    (addStudentHandler noFaults [] emptyStore
        (.obj [("id", .str ""), ("name", .str "Bob")])).response
      = ⟨400, errBody "Invalid student data"⟩ ∧
    (addStudentHandler noFaults [] emptyStore
        (.obj [("id", .str ""), ("name", .str "Bob")])).store.students = [] :=
  ⟨rfl, rfl, rfl, rfl⟩

/-- Shared sample student body and a store already holding a student with
the same application id. -/
def bobStudent : JsValue := .obj [("id", .str "S1"), ("name", .str "Bob")]

/-- Store whose `students` collection already holds a student with id S1. -/
def storeWithStudentS1 : StoreState :=
  ⟨[.obj [("id", .str "S1"), ("name", .str "Alice"), ("_id", oidJson 0)]], [], 1, 0⟩

/-- C8 (amended): POST /addStudent requires `id` and `name` to be truthy
— when either is missing or falsy (the empty body included) it answers
400 with body (error: Invalid student data) and writes nothing; when both
are truthy it inserts the document with no de-duplication check, the
conclusion holding for every store, in particular one already containing
the same id, and answers 201. -/
theorem C8_addStudent_amended (f : Faults) (cache : CacheState)
    (store : StoreState) (body : JsValue) :
    (truthyField body "id" = false ∨ truthyField body "name" = false →
      (addStudentHandler f cache store body).response
        = ⟨400, errBody "Invalid student data"⟩ ∧
      (addStudentHandler f cache store body).store = store ∧
      (addStudentHandler f cache store body).cache = cache) ∧
    (truthyField body "id" = true → truthyField body "name" = true →
      (addStudentHandler noFaults cache store body).response.status = 201 ∧
      (addStudentHandler noFaults cache store body).store.students
        = store.students ++ [(mongoInsert body store.nextOid).2.1]) := by
  constructor
  · intro h
    cases h with
    | inl h => simp [addStudentHandler, h]
    | inr h => simp [addStudentHandler, h]
  · intro h1 h2
    simp [addStudentHandler, noFaults, h1, h2]

/-- C8 witness: the empty body is rejected, and a duplicate-id student is
silently accepted with 201 and appended. -/
theorem C8_addStudent_amended_witness :
    ((addStudentHandler noFaults [] emptyStore (.obj [])).response
        = ⟨400, errBody "Invalid student data"⟩ ∧
      (addStudentHandler noFaults [] emptyStore (.obj [])).store = emptyStore ∧
      (addStudentHandler noFaults [] emptyStore (.obj [])).cache = []) ∧
    ((addStudentHandler noFaults [] storeWithStudentS1 bobStudent).response.status
        = 201 ∧
      (addStudentHandler noFaults [] storeWithStudentS1 bobStudent).store.students
        = storeWithStudentS1.students
            ++ [(mongoInsert bobStudent storeWithStudentS1.nextOid).2.1]) :=
  ⟨(C8_addStudent_amended noFaults [] emptyStore (.obj [])).1 (Or.inl rfl),
   (C8_addStudent_amended noFaults [] storeWithStudentS1 bobStudent).2 rfl rfl⟩

/-- C10: validation on both write endpoints is by truthiness, not mere
presence — a present but falsy `id` or `subjects` on POST /addResult, and
a present but falsy `id` or `name` on POST /addStudent, are rejected with
the same 400 response produced for an absent field, with no store or
cache write, whatever the downstream fault environment. -/
theorem C10_falsy_field_rejected (ttl now : Int) (f : Faults)
    (cache : CacheState) (store : StoreState) (rbody sbody : JsValue)
    (hr : (∃ v, rbody.getField "id" = some v ∧ jsTruthy v = false) ∨
          (∃ v, rbody.getField "subjects" = some v ∧ jsTruthy v = false))
    (hs : (∃ v, sbody.getField "id" = some v ∧ jsTruthy v = false) ∨
          (∃ v, sbody.getField "name" = some v ∧ jsTruthy v = false)) :
    ((addResultHandler ttl now f cache store rbody).response
        = ⟨400, errBody "Invalid result data"⟩ ∧
      (addResultHandler ttl now f cache store rbody).cache = cache ∧
      (addResultHandler ttl now f cache store rbody).store = store) ∧
    ((addStudentHandler f cache store sbody).response
        = ⟨400, errBody "Invalid student data"⟩ ∧
      (addStudentHandler f cache store sbody).cache = cache ∧
      (addStudentHandler f cache store sbody).store = store) := by
  constructor
  · rcases hr with ⟨v, hv, htr⟩ | ⟨v, hv, htr⟩
    · simp [addResultHandler, truthyField, hv, htr]
    · simp [addResultHandler, truthyField, hv, htr]
  · rcases hs with ⟨v, hv, htr⟩ | ⟨v, hv, htr⟩
    · simp [addStudentHandler, truthyField, hv, htr]
    · simp [addStudentHandler, truthyField, hv, htr]

/-- C10 witness: a zero id on /addResult and an empty-string name on
/addStudent are both rejected with no side effect. -/
theorem C10_falsy_field_rejected_witness :
    ((addResultHandler 600 0 noFaults [] emptyStore
        (.obj [("id", .num 0), ("subjects", .obj [("math", .num 90)])])).response
        = ⟨400, errBody "Invalid result data"⟩ ∧
      (addResultHandler 600 0 noFaults [] emptyStore
        (.obj [("id", .num 0), ("subjects", .obj [("math", .num 90)])])).cache = [] ∧
      (addResultHandler 600 0 noFaults [] emptyStore
        (.obj [("id", .num 0), ("subjects", .obj [("math", .num 90)])])).store
        = emptyStore) ∧
    ((addStudentHandler noFaults [] emptyStore
        (.obj [("id", .str "S9"), ("name", .str "")])).response
        = ⟨400, errBody "Invalid student data"⟩ ∧
      (addStudentHandler noFaults [] emptyStore
        (.obj [("id", .str "S9"), ("name", .str "")])).cache = [] ∧
      (addStudentHandler noFaults [] emptyStore
        (.obj [("id", .str "S9"), ("name", .str "")])).store = emptyStore) :=
  C10_falsy_field_rejected 600 0 noFaults [] emptyStore
    (.obj [("id", .num 0), ("subjects", .obj [("math", .num 90)])])
    (.obj [("id", .str "S9"), ("name", .str "")])
    (Or.inl ⟨.num 0, rfl, rfl⟩) (Or.inr ⟨.str "", rfl, rfl⟩)
